import Mathlib

/-
Verification of the tracking-session engine of the Odom walking tracker
(src/app/page.tsx): the distance accumulator fed by geolocation samples,
the session clock, and the lap bookkeeping.

The embedding follows the source component state and handlers:
`startTracking`, the `watchPosition` callback (here `ingest`), the
one-second interval callback (here `tick`), `recordLap` and `stopTracking`.
Numbers of the source are real numbers here; timestamps and second counts
are integers (JavaScript arithmetic on these values is exact).
-/

namespace Odom

/-- Position sample, as in the source: latitude and longitude in degrees,
timestamp in milliseconds since epoch. -/
structure Position where
  latitude : ℝ
  longitude : ℝ
  timestamp : ℤ

/-- Lap record. The source stores the cumulative time and the lap time only
as formatted strings (`time := formatTime currentTime`,
`lapTime := formatTime lapTime`); the numeric values the source computes
and then formats are carried alongside (`timeSeconds`, `lapTimeSeconds`)
so that the arithmetic identities of the specification can be stated. -/
structure Lap where
  lapNumber : ℕ
  time : String
  timeSeconds : ℤ
  distance : ℝ
  lapTime : String
  lapTimeSeconds : ℤ
  lapDistance : ℝ

/-- JavaScript atan2: quadrant-aware arctangent. -/
noncomputable def jsAtan2 (y x : ℝ) : ℝ :=
  if 0 < x then Real.arctan (y / x)
  else if x < 0 ∧ 0 ≤ y then Real.arctan (y / x) + Real.pi
  else if x < 0 then Real.arctan (y / x) - Real.pi
  else if 0 < y then Real.pi / 2
  else if y < 0 then -(Real.pi / 2)
  else 0

/-- Haversine distance in meters, translated from `calculateDistance`
(src/app/page.tsx lines 30 to 43). -/
noncomputable def calculateDistance (pos1 pos2 : Position) : ℝ :=
  let R : ℝ := 6371e3
  let φ1 := pos1.latitude * Real.pi / 180
  let φ2 := pos2.latitude * Real.pi / 180
  let dφ := (pos2.latitude - pos1.latitude) * Real.pi / 180
  let dlam := (pos2.longitude - pos1.longitude) * Real.pi / 180
  let a := Real.sin (dφ / 2) * Real.sin (dφ / 2) +
    Real.cos φ1 * Real.cos φ2 * Real.sin (dlam / 2) * Real.sin (dlam / 2)
  let c := 2 * jsAtan2 (Real.sqrt a) (Real.sqrt (1 - a))
  R * c

/-- Modelled from the spec (section 4.1): the haversine great-circle
distance on a sphere of radius 6371000 meters, written with the formula
of the specification, to be compared with `calculateDistance`. -/
noncomputable def haversineSpec (p1 p2 : Position) : ℝ :=
  let R : ℝ := 6371000
  let φ1 := p1.latitude * Real.pi / 180
  let φ2 := p2.latitude * Real.pi / 180
  let dφ := (p2.latitude - p1.latitude) * Real.pi / 180
  let dlam := (p2.longitude - p1.longitude) * Real.pi / 180
  let a := Real.sin (dφ / 2) ^ 2 + Real.cos φ1 * Real.cos φ2 * Real.sin (dlam / 2) ^ 2
  let c := 2 * jsAtan2 (Real.sqrt a) (Real.sqrt (1 - a))
  R * c

/-- JavaScript padStart(2, "0") on the decimal rendering of an integer. -/
def pad2 (n : ℤ) : String :=
  let s := toString n
  if s.length < 2 then "0" ++ s else s

/-- Time formatter, translated from `formatTime` (src/app/page.tsx lines 45
to 58): hours segment omitted when zero, all segments zero-padded to two
digits. `Int.fdiv` is Math.floor of the division; `Int.tmod` is the
JavaScript remainder. -/
def formatTime (seconds : ℤ) : String :=
  let hrs := Int.fdiv seconds 3600
  let mins := Int.fdiv (Int.tmod seconds 3600) 60
  let secs := Int.tmod seconds 60
  if 0 < hrs then pad2 hrs ++ ":" ++ pad2 mins ++ ":" ++ pad2 secs
  else pad2 mins ++ ":" ++ pad2 secs

/-- The session-relevant component state of `Home` (src/app/page.tsx):
React state plus the refs the handlers read and write. Fields excluded by
the spec scope (permission flow, theme, debug readout, loading and error
banners, watch id) are omitted. -/
structure TrackerState where
  isTracking : Bool
  elapsedTime : ℤ
  totalDistance : ℝ
  laps : List Lap
  lastPosition : Option Position
  startTime : Option ℤ
  lastLapDistance : ℝ
  lastLapTime : ℤ
  currentPosition : Option Position

/-- Component state before any interaction. -/
def initialState : TrackerState :=
  { isTracking := false
    elapsedTime := 0
    totalDistance := 0
    laps := []
    lastPosition := none
    startTime := none
    lastLapDistance := 0
    lastLapTime := 0
    currentPosition := none }

/-- Session start, translated from `startTracking` (src/app/page.tsx lines
167 to 216), with the location permission already granted (the permission
flow is an external collaborator per the spec). `now` is the Date.now()
value stored into `startTimeRef`. -/
def startTracking (now : ℤ) (s : TrackerState) : TrackerState :=
  { s with
    isTracking := true
    elapsedTime := 0
    totalDistance := 0
    laps := []
    lastPosition := none
    startTime := some now
    lastLapDistance := 0
    lastLapTime := 0 }

/-- Position ingestion, translated from the `watchPosition` callback inside
`startTracking` (src/app/page.tsx lines 183 to 205). `newPosition` is the
sample the callback builds from the geolocation coordinates and
Date.now(). Note that `lastPositionRef` is overwritten by every sample,
whether or not the 5 meter threshold accepted its distance. -/
noncomputable def ingest (newPosition : Position) (s : TrackerState) : TrackerState :=
  { s with
    currentPosition := some newPosition
    totalDistance :=
      match s.lastPosition with
      | some lastPos =>
          if 5 < calculateDistance lastPos newPosition then
            s.totalDistance + calculateDistance lastPos newPosition
          else s.totalDistance
      | none => s.totalDistance
    lastPosition := some newPosition }

/-- Clock tick, translated from the interval callback installed by the
timer effect (src/app/page.tsx lines 107 to 122): while the effect guard
`isTracking && startTimeRef.current` holds, elapsed time is recomputed as
Math.floor((now - start) / 1000). JavaScript truthiness makes a zero start
instant falsy, so the guard also requires the stored instant to be
nonzero. -/
def tick (now : ℤ) (s : TrackerState) : TrackerState :=
  match s.startTime with
  | none => s
  | some st =>
      if s.isTracking = true ∧ st ≠ 0 then
        { s with elapsedTime := Int.fdiv (now - st) 1000 }
      else s

/-- Lap recording, translated from `recordLap` (src/app/page.tsx lines 234
to 253). The guard mirrors `!isTracking || !startTimeRef.current`
(JavaScript truthiness: both a null and a zero start instant bail out). -/
def recordLap (s : TrackerState) : TrackerState :=
  if s.isTracking = false ∨ s.startTime.getD 0 = 0 then s
  else
    let currentTime := s.elapsedTime
    let currentDistance := s.totalDistance
    let lapTime := currentTime - s.lastLapTime
    let lapDistance := currentDistance - s.lastLapDistance
    let newLap : Lap :=
      { lapNumber := s.laps.length + 1
        time := formatTime currentTime
        timeSeconds := currentTime
        distance := currentDistance
        lapTime := formatTime lapTime
        lapTimeSeconds := lapTime
        lapDistance := lapDistance }
    { s with
      laps := s.laps ++ [newLap]
      lastLapDistance := currentDistance
      lastLapTime := currentTime }

/-- Session stop, translated from `stopTracking` (src/app/page.tsx lines
218 to 232): a final lap is recorded while the session is active (guard
`isTracking && startTimeRef.current`), then tracking is switched off, the
start instant, anchor position and current position are cleared. Clearing
the geolocation watch is the external collaborator side of the same
lines. -/
noncomputable def stopTracking (s : TrackerState) : TrackerState :=
  let s1 := if s.isTracking = true ∧ s.startTime.getD 0 ≠ 0 then recordLap s else s
  { s1 with
    isTracking := false
    startTime := none
    lastPosition := none
    currentPosition := none }

/-- Events the engine consumes after a session has been started: a
geolocation sample, a timer tick, the Lap button, the Stop button.
Session start is the separate entry point `startTracking`; it is the only
command that resets the accumulator. -/
inductive Event where
  | ingest (p : Position)
  | tick (now : ℤ)
  | lap
  | stop

/-- Dispatch one event to the corresponding handler. -/
noncomputable def step (e : Event) (s : TrackerState) : TrackerState :=
  match e with
  | .ingest p => ingest p s
  | .tick now => tick now s
  | .lap => recordLap s
  | .stop => stopTracking s

/-- Run a sequence of events in arrival order. -/
noncomputable def run (l : List Event) (s : TrackerState) : TrackerState :=
  l.foldl (fun s e => step e s) s

/-- Recognizer for geolocation-sample events; the geolocation watch is
cleared on stop, so no such event is delivered while stopped. -/
def isPosEvent : Event → Bool
  | .ingest _ => true
  | _ => false

end Odom

namespace Odom

/-- Scenario positions: P0 at the origin, P1 at longitude 0.0001 (Scenario
A, about 11.1 m east), P2 at longitude 0.00003 (Scenario B, about 3.3 m
east). -/
def P0 : Position := ⟨0, 0, 0⟩

/-- Scenario A second sample. -/
def P1 : Position := ⟨0, 0.0001, 1000⟩

/-- Scenario B second sample. -/
def P2 : Position := ⟨0, 0.00003, 1000⟩

/-- On the equator the haversine evaluates to radius times the longitude
difference in radians, for an eastward difference below 180 degrees. -/
lemma calculateDistance_equator (t1 t2 : ℤ) (lon1 lon2 : ℝ)
    (h0 : 0 < lon2 - lon1) (h180 : lon2 - lon1 < 180) :
    calculateDistance ⟨0, lon1, t1⟩ ⟨0, lon2, t2⟩
      = 6371000 * ((lon2 - lon1) * Real.pi / 180) := by
  have hπ := Real.pi_pos
  have hx0 : 0 < (lon2 - lon1) * Real.pi / 180 / 2 := by
    have h := mul_pos h0 hπ
    linarith
  have hx2 : (lon2 - lon1) * Real.pi / 180 / 2 < Real.pi / 2 := by
    have h := mul_lt_mul_of_pos_right h180 hπ
    linarith
  have hsin : 0 ≤ Real.sin ((lon2 - lon1) * Real.pi / 180 / 2) :=
    Real.sin_nonneg_of_nonneg_of_le_pi (le_of_lt hx0) (by linarith)
  have hcos : 0 < Real.cos ((lon2 - lon1) * Real.pi / 180 / 2) :=
    Real.cos_pos_of_mem_Ioo ⟨by linarith, hx2⟩
  have hone : 1 - Real.sin ((lon2 - lon1) * Real.pi / 180 / 2) *
      Real.sin ((lon2 - lon1) * Real.pi / 180 / 2)
      = Real.cos ((lon2 - lon1) * Real.pi / 180 / 2) *
        Real.cos ((lon2 - lon1) * Real.pi / 180 / 2) := by
    have h := Real.sin_sq_add_cos_sq ((lon2 - lon1) * Real.pi / 180 / 2)
    nlinarith [h]
  simp only [calculateDistance]
  norm_num
  rw [hone, Real.sqrt_mul_self hsin, Real.sqrt_mul_self hcos.le]
  simp only [jsAtan2, if_pos hcos]
  rw [← Real.tan_eq_sin_div_cos, Real.arctan_tan (by linarith) hx2]
  ring

end Odom

namespace Odom

/-- Scenario A distance in closed form. -/
lemma dist_P0_P1_eq : calculateDistance P0 P1 = 6371000 * (0.0001 * Real.pi / 180) := by
  have h := calculateDistance_equator 0 1000 0 0.0001 (by norm_num) (by norm_num)
  simpa [P0, P1] using h

/-- Scenario B distance in closed form. -/
lemma dist_P0_P2_eq : calculateDistance P0 P2 = 6371000 * (0.00003 * Real.pi / 180) := by
  have h := calculateDistance_equator 0 1000 0 0.00003 (by norm_num) (by norm_num)
  simpa [P0, P2] using h

/-- The Scenario A hop clears the 5 meter noise threshold. -/
lemma dist_P0_P1_gt_5 : 5 < calculateDistance P0 P1 := by
  rw [dist_P0_P1_eq]
  nlinarith [Real.pi_gt_d2]

/-- The Scenario A hop is about 11.1 meters. -/
lemma dist_P0_P1_bounds : 11.11 < calculateDistance P0 P1 ∧ calculateDistance P0 P1 < 11.13 := by
  rw [dist_P0_P1_eq]
  constructor
  · nlinarith [Real.pi_gt_d6]
  · nlinarith [Real.pi_lt_d6]

/-- The Scenario B hop stays below the 5 meter noise threshold. -/
lemma dist_P0_P2_le_5 : calculateDistance P0 P2 ≤ 5 := by
  rw [dist_P0_P2_eq]
  nlinarith [Real.pi_lt_d2, Real.pi_pos]

end Odom

namespace Odom

/-- State of Scenario B just before the second sample: a session started
at instant 1 whose first sample P0 established the baseline anchor. -/
noncomputable def stateB : TrackerState := ingest P0 (startTracking 1 initialState)

/-- C1 counterexample: the second Scenario B sample P2 is within 5 meters
of the anchor P0, yet ingesting it does replace the anchor (the source
overwrites lastPositionRef on every sample), so the claimed conjunction
fails: the total is unchanged but the anchor is not. -/
theorem anchor_retention_cex :
    calculateDistance P0 P2 ≤ 5 ∧
    (ingest P2 stateB).totalDistance = stateB.totalDistance ∧
    (ingest P2 stateB).lastPosition ≠ stateB.lastPosition := by
  refine ⟨dist_P0_P2_le_5, ?_, ?_⟩
  · show (if 5 < calculateDistance P0 P2 then stateB.totalDistance + calculateDistance P0 P2
      else stateB.totalDistance) = stateB.totalDistance
    rw [if_neg (not_lt.mpr dist_P0_P2_le_5)]
  · show some P2 ≠ some P0
    simp [P0, P2, Position.mk.injEq]

/-- C1 amended: a sample within the 5 meter threshold of the anchor leaves
the total unchanged, but the anchor is replaced by the rejected sample
(the comparison anchor advances on every sample, not only on accepted
movement). -/
theorem reject_keeps_total_but_moves_anchor (s : TrackerState) (lastPos p : Position)
    (h : s.lastPosition = some lastPos) (hd : calculateDistance lastPos p ≤ 5) :
    (ingest p s).totalDistance = s.totalDistance ∧
    (ingest p s).lastPosition = some p := by
  constructor
  · simp only [ingest, h]
    rw [if_neg (not_lt.mpr hd)]
  · rfl

/-- C1 witness: the amended statement at Scenario B. -/
theorem reject_keeps_total_but_moves_anchor_witness :
    (ingest P2 stateB).totalDistance = stateB.totalDistance ∧
    (ingest P2 stateB).lastPosition = some P2 :=
  reject_keeps_total_but_moves_anchor stateB P0 P2 rfl dist_P0_P2_le_5

end Odom

namespace Odom

/-- C2: with an established anchor, a sample at haversine distance at most
5 meters (including exactly 5) leaves the total unchanged, and a sample
strictly beyond 5 meters increases the total by exactly that distance
(real arithmetic here, so the identity is exact, well within the 1e-6
tolerance of the spec). -/
theorem noise_floor_exact (s : TrackerState) (lastPos p : Position)
    (h : s.lastPosition = some lastPos) :
    (calculateDistance lastPos p ≤ 5 → (ingest p s).totalDistance = s.totalDistance) ∧
    (5 < calculateDistance lastPos p →
      (ingest p s).totalDistance = s.totalDistance + calculateDistance lastPos p) := by
  constructor
  · intro hd
    simp only [ingest, h]
    rw [if_neg (not_lt.mpr hd)]
  · intro hd
    simp only [ingest, h]
    rw [if_pos hd]

/-- C2 witness: Scenario A, where the 11.1 meter hop P0 to P1 is accepted
and added exactly. -/
theorem noise_floor_exact_witness :
    5 < calculateDistance P0 P1 ∧
    (ingest P1 stateB).totalDistance = stateB.totalDistance + calculateDistance P0 P1 :=
  ⟨dist_P0_P1_gt_5, (noise_floor_exact stateB P0 P1 rfl).2 dist_P0_P1_gt_5⟩

/-- C3: the distance function used by ingestion is exactly the haversine
great-circle formula of the spec on a sphere of radius 6371000 meters,
and on the Scenario A pair it evaluates to about 11.1 meters (bounded
here between 11.11 and 11.13). -/
theorem calculateDistance_is_haversine :
    (∀ p1 p2 : Position, calculateDistance p1 p2 = haversineSpec p1 p2) ∧
    11.11 < calculateDistance P0 P1 ∧ calculateDistance P0 P1 < 11.13 := by
  refine ⟨?_, dist_P0_P1_bounds⟩
  intro p1 p2
  simp only [calculateDistance, haversineSpec]
  norm_num [pow_two]
  ring_nf

/-- C10: the first sample after a session start, ingested while the anchor
is absent, never changes the total; it only becomes the new baseline
anchor (laps and elapsed time are untouched as well). -/
theorem first_ingest_baseline (s : TrackerState) (p : Position)
    (h : s.lastPosition = none) :
    (ingest p s).totalDistance = s.totalDistance ∧
    (ingest p s).lastPosition = some p ∧
    (ingest p s).laps = s.laps ∧
    (ingest p s).elapsedTime = s.elapsedTime := by
  refine ⟨?_, rfl, rfl, rfl⟩
  simp only [ingest, h]

/-- C10 witness: the Scenario A first sample on a freshly started session. -/
theorem first_ingest_baseline_witness :
    (ingest P0 (startTracking 3 initialState)).totalDistance
      = (startTracking 3 initialState).totalDistance ∧
    (ingest P0 (startTracking 3 initialState)).lastPosition = some P0 ∧
    (ingest P0 (startTracking 3 initialState)).laps = (startTracking 3 initialState).laps ∧
    (ingest P0 (startTracking 3 initialState)).elapsedTime
      = (startTracking 3 initialState).elapsedTime :=
  first_ingest_baseline (startTracking 3 initialState) P0 rfl

end Odom

namespace Odom

/-- Lap recording never changes the running total. -/
lemma recordLap_totalDistance (s : TrackerState) :
    (recordLap s).totalDistance = s.totalDistance := by
  simp only [recordLap]
  split <;> rfl

/-- Stopping never changes the running total. -/
lemma stopTracking_totalDistance (s : TrackerState) :
    (stopTracking s).totalDistance = s.totalDistance := by
  show (if s.isTracking = true ∧ s.startTime.getD 0 ≠ 0 then recordLap s else s).totalDistance
    = s.totalDistance
  split
  · exact recordLap_totalDistance s
  · rfl

/-- Ticking never changes the running total. -/
lemma tick_totalDistance (now : ℤ) (s : TrackerState) :
    (tick now s).totalDistance = s.totalDistance := by
  rcases hs : s.startTime with _ | st <;> simp only [tick, hs]
  split <;> rfl

/-- Every single event leaves the running total the same or larger. -/
lemma step_total_mono (e : Event) (s : TrackerState) :
    s.totalDistance ≤ (step e s).totalDistance := by
  cases e with
  | ingest p =>
      show s.totalDistance ≤ (ingest p s).totalDistance
      rcases hl : s.lastPosition with _ | lastPos <;> simp only [Odom.ingest, hl]
      · exact le_refl _
      · split
        · linarith
        · exact le_refl _
  | tick now => exact le_of_eq (tick_totalDistance now s).symm
  | lap => exact le_of_eq (recordLap_totalDistance s).symm
  | stop => exact le_of_eq (stopTracking_totalDistance s).symm

/-- Over any event sequence the running total never decreases. -/
lemma run_total_mono (l : List Event) (s : TrackerState) :
    s.totalDistance ≤ (run l s).totalDistance := by
  induction l generalizing s with
  | nil => exact le_refl _
  | cons e l ih => exact le_trans (step_total_mono e s) (ih (step e s))

/-- C4: the running total is non-decreasing across every event of a
session: each single step (in particular each ingest) leaves the total
greater than or equal to what it was, hence so does any event sequence
between a start and the following stop. -/
theorem totalDistance_monotone :
    (∀ (e : Event) (s : TrackerState), s.totalDistance ≤ (step e s).totalDistance) ∧
    (∀ (l : List Event) (s : TrackerState), s.totalDistance ≤ (run l s).totalDistance) :=
  ⟨step_total_mono, run_total_mono⟩

end Odom

namespace Odom

/-- Chain predicate for the lap list: starting from previous cumulative
values t (seconds) and d (meters), every lap carries deltas equal to its
cumulative values minus those of its predecessor. Read at (0, 0) this is
the specification identity: lap n has
lapTimeSeconds = cumulative(n) - cumulative(n-1) and likewise for
distance, with lap 0 cumulative values taken as 0. -/
def lapChainOK : ℤ → ℝ → List Lap → Prop
  | _, _, [] => True
  | t, d, lap :: rest =>
      lap.lapTimeSeconds = lap.timeSeconds - t ∧
      lap.lapDistance = lap.distance - d ∧
      lapChainOK lap.timeSeconds lap.distance rest

/-- Cumulative values at the last lap boundary, starting from (t, d). -/
def lastCum : ℤ → ℝ → List Lap → ℤ × ℝ
  | t, d, [] => (t, d)
  | _, _, lap :: rest => lastCum lap.timeSeconds lap.distance rest

lemma lastCum_append (l : List Lap) (t : ℤ) (d : ℝ) (x : Lap) :
    lastCum t d (l ++ [x]) = (x.timeSeconds, x.distance) := by
  induction l generalizing t d with
  | nil => rfl
  | cons a rest ih => exact ih a.timeSeconds a.distance

lemma lapChainOK_append (l : List Lap) (t : ℤ) (d : ℝ) (x : Lap)
    (hc : lapChainOK t d l)
    (ht : x.lapTimeSeconds = x.timeSeconds - (lastCum t d l).1)
    (hd : x.lapDistance = x.distance - (lastCum t d l).2) :
    lapChainOK t d (l ++ [x]) := by
  induction l generalizing t d with
  | nil => exact ⟨ht, hd, trivial⟩
  | cons a rest ih =>
      obtain ⟨h1, h2, h3⟩ := hc
      exact ⟨h1, h2, ih a.timeSeconds a.distance h3 ht hd⟩

/-- Lap bookkeeping invariant: the recorded laps chain correctly from the
initial (0, 0) boundary, and the boundary refs hold exactly the
cumulative values of the last recorded lap. -/
def LapInv (s : TrackerState) : Prop :=
  lapChainOK 0 0 s.laps ∧ lastCum 0 0 s.laps = (s.lastLapTime, s.lastLapDistance)

lemma lapInv_recordLap (s : TrackerState) (h : LapInv s) : LapInv (recordLap s) := by
  simp only [recordLap]
  split
  · exact h
  · obtain ⟨hc, hb⟩ := h
    constructor
    · refine lapChainOK_append s.laps 0 0 _ hc ?_ ?_
      · rw [hb]
      · rw [hb]
    · rw [lastCum_append]

lemma lapInv_step (e : Event) (s : TrackerState) (h : LapInv s) : LapInv (step e s) := by
  cases e with
  | ingest p => exact h
  | tick now =>
      show LapInv (tick now s)
      rcases hs : s.startTime with _ | st <;> simp only [tick, hs]
      · exact h
      · split
        · exact h
        · exact h
  | lap => exact lapInv_recordLap s h
  | stop =>
      show LapInv (stopTracking s)
      simp only [stopTracking]
      split
      · exact lapInv_recordLap s h
      · exact h

lemma lapInv_run (l : List Event) (s : TrackerState) (h : LapInv s) : LapInv (run l s) := by
  induction l generalizing s with
  | nil => exact h
  | cons e l ih => exact ih (step e s) (lapInv_step e s h)

lemma lapInv_start (now : ℤ) (s : TrackerState) : LapInv (startTracking now s) :=
  ⟨trivial, rfl⟩

/-- C5: after a session start, every sequence of events (lap recordings
and stops included) leaves a lap list in which each lap's deltas equal
its cumulative values minus those of the previous lap, the values before
the first lap counting as 0. -/
theorem lap_deltas_chain (s : TrackerState) (t0 : ℤ) (l : List Event) :
    lapChainOK 0 0 (run l (startTracking t0 s)).laps :=
  (lapInv_run l (startTracking t0 s) (lapInv_start t0 s)).1

end Odom

namespace Odom

/-- Rewriting helper for `tick` once the start instant is known. -/
lemma tick_eq (now st : ℤ) (s : TrackerState) (h2 : s.startTime = some st) :
    tick now s = if s.isTracking = true ∧ st ≠ 0 then
      { s with elapsedTime := Int.fdiv (now - st) 1000 } else s := by
  unfold tick
  rw [h2]

/-- C6: stopping a running session appends exactly one more lap, carrying
the still unflushed time and distance since the last lap boundary, and
only then leaves the running phase: tracking is off, the start instant is
cleared, and the elapsed seconds keep their last computed value. -/
theorem stop_finalizes_lap (s : TrackerState) (st : ℤ)
    (h1 : s.isTracking = true) (h2 : s.startTime = some st) (h3 : st ≠ 0) :
    (∃ lap : Lap, (stopTracking s).laps = s.laps ++ [lap] ∧
      lap.lapTimeSeconds = s.elapsedTime - s.lastLapTime ∧
      lap.lapDistance = s.totalDistance - s.lastLapDistance) ∧
    (stopTracking s).isTracking = false ∧
    (stopTracking s).elapsedTime = s.elapsedTime ∧
    (stopTracking s).startTime = none := by
  have hg : s.isTracking = true ∧ s.startTime.getD 0 ≠ 0 := by
    refine ⟨h1, ?_⟩
    rw [h2]
    simpa using h3
  have hg2 : ¬(s.isTracking = false ∨ s.startTime.getD 0 = 0) := by
    rintro (ha | hb)
    · rw [h1] at ha
      exact Bool.noConfusion ha
    · rw [h2] at hb
      simp at hb
      exact h3 hb
  simp only [stopTracking, if_pos hg, recordLap, if_neg hg2]
  refine ⟨⟨_, rfl, ?_, ?_⟩, ?_, ?_, ?_⟩ <;> trivial

/-- C6 witness: stopping a session freshly started at instant 5. -/
theorem stop_finalizes_lap_witness :
    (∃ lap : Lap, (stopTracking (startTracking 5 initialState)).laps
        = (startTracking 5 initialState).laps ++ [lap] ∧
      lap.lapTimeSeconds = (startTracking 5 initialState).elapsedTime
        - (startTracking 5 initialState).lastLapTime ∧
      lap.lapDistance = (startTracking 5 initialState).totalDistance
        - (startTracking 5 initialState).lastLapDistance) ∧
    (stopTracking (startTracking 5 initialState)).isTracking = false ∧
    (stopTracking (startTracking 5 initialState)).elapsedTime
      = (startTracking 5 initialState).elapsedTime ∧
    (stopTracking (startTracking 5 initialState)).startTime = none :=
  stop_finalizes_lap (startTracking 5 initialState) 5 rfl rfl (by decide)

/-- C7: transitions from an invalid phase are silent no-ops: a second
consecutive stop changes nothing (so no extra lap and the same elapsed
seconds), and recording a lap while not tracking returns the state
entirely unchanged. -/
theorem invalid_phase_noop :
    (∀ s : TrackerState, stopTracking (stopTracking s) = stopTracking s) ∧
    (∀ s : TrackerState, s.isTracking = false → recordLap s = s) := by
  constructor
  · intro s
    rfl
  · intro s h
    simp [recordLap, h]

/-- C7 witness: both no-ops at the idle initial state. -/
theorem invalid_phase_noop_witness :
    stopTracking (stopTracking initialState) = stopTracking initialState ∧
    recordLap initialState = initialState :=
  ⟨invalid_phase_noop.1 initialState, invalid_phase_noop.2 initialState rfl⟩

end Odom

namespace Odom

/-- While not tracking, any non-sample event keeps the accumulator fields
(total and anchor) frozen and the phase off. Sample events are excluded
because the geolocation watch is cleared on stop, so none are delivered. -/
lemma frozen_step (e : Event) (s : TrackerState) (h1 : s.isTracking = false)
    (h2 : s.lastPosition = none) (he : isPosEvent e = false) :
    (step e s).isTracking = false ∧ (step e s).lastPosition = none ∧
    (step e s).totalDistance = s.totalDistance := by
  cases e with
  | ingest p => simp [isPosEvent] at he
  | tick now =>
      show (tick now s).isTracking = false ∧ (tick now s).lastPosition = none ∧
        (tick now s).totalDistance = s.totalDistance
      rcases hs : s.startTime with _ | st <;> simp only [tick, hs]
      · exact ⟨h1, h2, by trivial⟩
      · rw [if_neg]
        · exact ⟨h1, h2, rfl⟩
        · rintro ⟨ha, _⟩
          rw [h1] at ha
          exact Bool.noConfusion ha
  | lap =>
      have hr : recordLap s = s := by simp [recordLap, h1]
      show (recordLap s).isTracking = false ∧ (recordLap s).lastPosition = none ∧
        (recordLap s).totalDistance = s.totalDistance
      rw [hr]
      exact ⟨h1, h2, rfl⟩
  | stop =>
      exact ⟨rfl, rfl, stopTracking_totalDistance s⟩

/-- Freezing extends to whole sequences of non-sample events. -/
lemma frozen_run (l : List Event) (s : TrackerState) (h1 : s.isTracking = false)
    (h2 : s.lastPosition = none) (hl : ∀ e ∈ l, isPosEvent e = false) :
    (run l s).isTracking = false ∧ (run l s).lastPosition = none ∧
    (run l s).totalDistance = s.totalDistance := by
  induction l generalizing s with
  | nil => exact ⟨h1, h2, rfl⟩
  | cons e l ih =>
      obtain ⟨ha, hb, hc⟩ := frozen_step e s h1 h2 (hl e (List.mem_cons_self e l))
      obtain ⟨hd, hf, hg⟩ := ih (step e s) ha hb (fun x hx => hl x (List.mem_cons_of_mem e hx))
      refine ⟨hd, hf, ?_⟩
      show (run l (step e s)).totalDistance = s.totalDistance
      rw [hg, hc]

/-- C8: once a session stops, the accumulator state is frozen: from the
state in force the moment the stop takes effect, every later sequence of
events that can occur while stopped (ticks, lap presses, repeated stops;
no samples, the watch being cleared, and no restart) leaves both the
total and the anchor unchanged. -/
theorem accumulator_frozen_after_stop (s : TrackerState) (l : List Event)
    (hl : ∀ e ∈ l, isPosEvent e = false) :
    (run l (stopTracking s)).totalDistance = (stopTracking s).totalDistance ∧
    (run l (stopTracking s)).lastPosition = (stopTracking s).lastPosition := by
  obtain ⟨_, hb, hc⟩ := frozen_run l (stopTracking s) rfl rfl hl
  exact ⟨hc, hb⟩

/-- C8 witness: after stopping a running session, a lap press, a tick and
a second stop leave the accumulator untouched. -/
theorem accumulator_frozen_after_stop_witness :
    (∀ e ∈ [Event.lap, Event.tick 9000, Event.stop], isPosEvent e = false) ∧
    (run [Event.lap, Event.tick 9000, Event.stop]
        (stopTracking (startTracking 4 initialState))).totalDistance
      = (stopTracking (startTracking 4 initialState)).totalDistance ∧
    (run [Event.lap, Event.tick 9000, Event.stop]
        (stopTracking (startTracking 4 initialState))).lastPosition
      = (stopTracking (startTracking 4 initialState)).lastPosition :=
  ⟨by decide, accumulator_frozen_after_stop (startTracking 4 initialState)
    [Event.lap, Event.tick 9000, Event.stop] (by decide)⟩

/-- C9: while running, a tick recomputes the elapsed seconds as the floor
of (now - startInstant) / 1000; in particular a tick 65000 ms after a
session start yields 65 elapsed seconds, which the time formatter renders
as "01:05". -/
theorem tick_elapsed_formula (s : TrackerState) (st now t0 : ℤ)
    (h1 : s.isTracking = true) (h2 : s.startTime = some st) (h3 : st ≠ 0) (h4 : t0 ≠ 0) :
    (tick now s).elapsedTime = Int.fdiv (now - st) 1000 ∧
    (tick (t0 + 65000) (startTracking t0 initialState)).elapsedTime = 65 ∧
    formatTime 65 = "01:05" := by
  refine ⟨?_, ?_, ?_⟩
  · rw [tick_eq now st s h2, if_pos ⟨h1, h3⟩]
  · rw [tick_eq (t0 + 65000) t0 (startTracking t0 initialState) rfl, if_pos ⟨rfl, h4⟩]
    show Int.fdiv (t0 + 65000 - t0) 1000 = 65
    have h : t0 + 65000 - t0 = 65000 := by ring
    rw [h]
    decide
  · rfl

/-- C9 witness: Scenario C on a session started at instant 7. -/
theorem tick_elapsed_formula_witness :
    (tick 65007 (startTracking 7 initialState)).elapsedTime = Int.fdiv (65007 - 7) 1000 ∧
    (tick (7 + 65000) (startTracking 7 initialState)).elapsedTime = 65 ∧
    formatTime 65 = "01:05" :=
  tick_elapsed_formula (startTracking 7 initialState) 7 65007 7 rfl rfl
    (by decide) (by decide)

end Odom
